import Mathlib

/-!
Verification of the client-side session lifecycle manager (`SessionManager`)
against its natural-language specification.

The development is a shallow embedding of the TypeScript source:
pure functions become Lean functions; the manager's mutable fields become
explicit state records; `async` interleaving is modelled by explicit call
sequences over those records (the runtime is single-threaded cooperative, so
an un-awaited stretch of code runs atomically); external collaborators
(identity provider, storage backend, health oracle, JWT decoding) are passed
in as explicit oracle values.  Ghost fields (invocation counters, event
traces) record the observable effects the claims talk about.
-/

namespace SessionSpec

/-- JavaScript string-or-default: `a || b` for an optional string, where an
absent value and the empty string are both falsy. -/
def jsOrStr (a : Option String) (b : String) : String :=
  match a with
  | some s => if s = "" then b else s
  | none => b

/-- `pat` is a leading segment of `l`. -/
def charsStartWith : List Char → List Char → Bool
  | _, [] => true
  | [], _ :: _ => false
  | a :: as, b :: bs => (a == b) && charsStartWith as bs

/-- `pat` occurs as a contiguous segment of `l`. -/
def charsHaveSegment : List Char → List Char → Bool
  | [], pat => pat.isEmpty
  | a :: as, pat => charsStartWith (a :: as) pat || charsHaveSegment as pat

/-- `pat` occurs as a contiguous substring of `s` (JS `s.includes(pat)`). -/
def containsSubstr (s pat : String) : Bool :=
  charsHaveSegment s.toList pat.toList

/-- Decoded structured payload of a JWT access token: the only claim the
manager reads is `tenant_id` (absent field modelled as `none`). -/
structure Payload where
  tenant_id : Option String
deriving DecidableEq

/-- `app_metadata` / `user_metadata` record on the identity provider's user:
again only `tenant_id` is read. -/
structure UserMeta where
  tenant_id : Option String
deriving DecidableEq

/-- The identity provider's user record (`User` from supabase-js), restricted
to the fields the manager reads.  `app_metadata`/`user_metadata` may
themselves be absent (`user.app_metadata?.`). -/
structure User where
  id : String
  email : Option String
  app_metadata : Option UserMeta
  user_metadata : Option UserMeta
deriving DecidableEq

/-- The provider credential (`Session` from supabase-js), restricted to the
fields the manager reads. -/
structure Session where
  access_token : String
  refresh_token : String
  expires_at : Option Int
  user : User
deriving DecidableEq

/-- `SessionContext` as declared in the source. -/
structure SessionContext where
  user_id : String
  tenant_id : String
  email : String
  session_id : String
  login_timestamp : Int
  last_activity : Int
deriving DecidableEq

/-- The metadata fallback executed in the `catch` branch of
`createSessionContext`:
`user.app_metadata?.tenant_id || user.user_metadata?.tenant_id || ''`. -/
def metadataTenantFallback (user : User) : String :=
  jsOrStr (user.app_metadata.bind UserMeta.tenant_id)
    (jsOrStr (user.user_metadata.bind UserMeta.tenant_id) "")

/-- JS `str.split(sep)` for a one-character separator, over the character
list: the (possibly empty) segments between occurrences of `sep`. -/
def splitOnChar (sep : Char) : List Char → List (List Char)
  | [] => [[]]
  | c :: cs =>
    let rest := splitOnChar sep cs
    if c == sep then [] :: rest
    else
      match rest with
      | [] => [[c]]
      | seg :: segs => (c :: seg) :: segs

/-- The guard of the JWT-claims branch:
`session.access_token && session.access_token.includes('.') &&
session.access_token.split('.').length === 3` (string operations taken over
the token's character list). -/
def tokenStructured (token : String) : Bool :=
  (token != "") && token.toList.any (fun c => c == '.')
    && ((splitOnChar '.' token.toList).length == 3)

/-- `SessionManager.createSessionContext`.  The platform decoding step
`JSON.parse(atob(...))` applied to the token's middle segment is an external
capability, passed as the oracle `decode`; `decode tok = none` models the
decode throwing (malformed base64/JSON), which lands in the `catch` branch.
`now` stands for `Date.now()`. -/
def createSessionContext (decode : String → Option Payload) (session : Session)
    (now : Int) : SessionContext :=
  let user := session.user
  let token := session.access_token
  let tenant_id : String :=
    if tokenStructured token then
      match decode token with
      | some payload => jsOrStr payload.tenant_id ""
      | none => metadataTenantFallback user
    else if token = "mock-token-123" then
      "tenant-a"
    else
      ""
  { user_id := user.id
    tenant_id := tenant_id
    email := jsOrStr user.email ""
    session_id := "session_" ++ user.id ++ "_" ++ toString now
    login_timestamp := now
    last_activity := now }

/-! ## Credential Validator cache (`validateSession`) -/

/-- `VALIDATION_CACHE_DURATION = 300000` ms (5 minutes). -/
def VALIDATION_CACHE_DURATION : Int := 300000

/-- `MAX_RETRY_ATTEMPTS = 5`. -/
def MAX_RETRY_ATTEMPTS : Nat := 5

/-- `RETRY_DELAY_BASE = 1000` ms. -/
def RETRY_DELAY_BASE : Nat := 1000

/-- The validator's slice of the manager's mutable state.  Promises are
identified by allocation order (`nextPromiseId` is the allocator);
`probeCount` is a ghost counter of `performValidation` launches, i.e. of
identity-provider probe round-trips started. -/
structure ValidatorState where
  sessionValidationPromise : Option Nat
  lastValidationTime : Int
  probeCount : Nat
  nextPromiseId : Nat
deriving DecidableEq

/-- The non-cached tail of `validateSession`: record the start time, launch
`performValidation()` (a fresh promise), and cache it. -/
def startValidation (now : Int) (st : ValidatorState) : Nat × ValidatorState :=
  (st.nextPromiseId,
   { sessionValidationPromise := some st.nextPromiseId
     lastValidationTime := now
     probeCount := st.probeCount + 1
     nextPromiseId := st.nextPromiseId + 1 })

/-- `SessionManager.validateSession`, as a transition on the validator state:
the returned `Nat` is the promise handed to the caller.  The code runs with
no suspension point between the cache check and the cache fill, so one call
is one atomic transition.  Note `lastValidationTime` is written when the
validation starts and never at its completion. -/
def validateSession (now : Int) (st : ValidatorState) : Nat × ValidatorState :=
  match st.sessionValidationPromise with
  | some p =>
    if now - st.lastValidationTime < VALIDATION_CACHE_DURATION then (p, st)
    else startValidation now st
  | none => startValidation now st

/-- A sequence of `validateSession` calls at the given instants, collecting
the promise each caller receives. -/
def runValidateCalls (ts : List Int) (st : ValidatorState) :
    List Nat × ValidatorState :=
  match ts with
  | [] => ([], st)
  | t :: rest =>
    let (r, st1) := validateSession t st
    let (rs, st2) := runValidateCalls rest st1
    (r :: rs, st2)

/-! ## Refresh Coordinator (`refreshSession`) -/

/-- The refresh coordinator's slice of the manager's state.  `refreshCount`
is a ghost counter of `performRefresh` launches (credential-store refresh
primitive invocations). -/
structure RefreshState where
  isRefreshing : Bool
  refreshPromise : Option Nat
  refreshCount : Nat
  nextPromiseId : Nat
deriving DecidableEq

/-- `SessionManager.refreshSession`, up to its first suspension point: either
join the in-flight promise (`if (this.isRefreshing && this.refreshPromise)`)
or set the flag, launch `performRefresh()` once and store its promise.  The
`finally` clause that clears the slots runs at completion of the in-flight
refresh, which by assumption has not happened while callers overlap. -/
def refreshSessionCall (st : RefreshState) : Nat × RefreshState :=
  match st.isRefreshing, st.refreshPromise with
  | true, some p => (p, st)
  | _, _ =>
    (st.nextPromiseId,
     { isRefreshing := true
       refreshPromise := some st.nextPromiseId
       refreshCount := st.refreshCount + 1
       nextPromiseId := st.nextPromiseId + 1 })

/-- `n` successive `refreshSession` calls, all issued before the in-flight
refresh (if any) completes. -/
def runRefreshCalls (n : Nat) (st : RefreshState) : List Nat × RefreshState :=
  match n with
  | 0 => ([], st)
  | m + 1 =>
    let (r, st1) := refreshSessionCall st
    let (rs, st2) := runRefreshCalls m st1
    (r :: rs, st2)

/-! ## `performRefresh` and cache invalidation -/

/-- The validator-cache fields `performRefresh` writes to. -/
structure VCache where
  sessionValidationPromise : Option Nat
  lastValidationTime : Int
deriving DecidableEq

/-- External outcomes consumed by one `performRefresh` run.
`primaryResult` is `supabase.auth.refreshSession()` (error or a possibly
absent session); `storedRefreshToken` is the refresh token recovered from the
stored auth blob in `localStorage` (`none` covers: no stored item, JSON parse
failure, or no `currentSession.refresh_token` — all reach `return null`);
`fallbackResult` is `supabase.auth.refreshSession({refresh_token})`;
`fallbackPersistOk` is whether the fallback branch's `setSession` persist call
succeeds (a throw there is caught and falls through to `return null`). -/
structure RefreshEnv where
  primaryResult : Except String (Option Session)
  storedRefreshToken : Option String
  fallbackResult : Except String (Option Session)
  fallbackPersistOk : Bool

/-- `SessionManager.performRefresh`, as a function from the external outcomes
and the validator cache to the returned credential and the cache afterwards.
On the primary path's success the cache is cleared
(`this.sessionValidationPromise = null; this.lastValidationTime = 0`); the
primary path's own `setSession` persist failure is caught and logged without
affecting the result.  Note the stored-token fallback branch returns the
refreshed session without touching the cache. -/
def performRefresh (env : RefreshEnv) (vc : VCache) : Option Session × VCache :=
  match env.primaryResult with
  | Except.error _ =>
    match env.storedRefreshToken with
    | some _ =>
      match env.fallbackResult with
      | Except.ok (some s) =>
        if env.fallbackPersistOk then (some s, vc) else (none, vc)
      | _ => (none, vc)
    | none => (none, vc)
  | Except.ok (some s) =>
    (some s, { sessionValidationPromise := none, lastValidationTime := 0 })
  | Except.ok none => (none, vc)

/-! ## Retry policy (`performValidation`) -/

/-- `SessionValidation` as declared in the source. -/
structure SessionValidation where
  isValid : Bool
  session : Option Session
  error : Option String
deriving DecidableEq

/-- The result built after the retry loop exhausts all attempts:
`lastError?.message || 'Session validation failed after all retries'`. -/
def finalInvalid (lastError : Option String) : SessionValidation :=
  { isValid := false
    session := none
    error := some (jsOrStr lastError "Session validation failed after all retries") }

/-- The retry loop of `SessionManager.performValidation`.  One attempt's body
(the provider probe with its early returns) is the oracle `attemptOutcome`:
`Except.ok v` models the body returning the validation `v`, `Except.error e`
models it throwing an error with message `e`.  The first argument is the list
of attempt numbers still to run (the `for` loop's counter values); the
returned list is the trace of backoff sleeps
`RETRY_DELAY_BASE * 2 ^ (attempt - 1)`, executed only while
`attempt < MAX_RETRY_ATTEMPTS`.  The loop never rethrows: its result is a
`SessionValidation` in every case. -/
def retryAttempts (attemptOutcome : Nat → Except String SessionValidation) :
    List Nat → Option String → SessionValidation × List Nat
  | [], lastError => (finalInvalid lastError, [])
  | attempt :: later, _ =>
    match attemptOutcome attempt with
    | Except.ok v => (v, [])
    | Except.error e =>
      let rest := retryAttempts attemptOutcome later (some e)
      if attempt < MAX_RETRY_ATTEMPTS then
        (rest.1, RETRY_DELAY_BASE * 2 ^ (attempt - 1) :: rest.2)
      else
        rest

/-- The attempt counter's values,
`for (attempt = 1; attempt <= MAX_RETRY_ATTEMPTS; attempt++)`. -/
def attemptSchedule : List Nat := List.range' 1 MAX_RETRY_ATTEMPTS

/-- `SessionManager.performValidation`: run the retry loop over attempts
`1..MAX_RETRY_ATTEMPTS` with no recorded error. -/
def performValidation (attemptOutcome : Nat → Except String SessionValidation) :
    SessionValidation × List Nat :=
  retryAttempts attemptOutcome attemptSchedule none

/-! ## Notification bus (`notifySessionChange`) -/

/-- The `type` field of `SessionChangeEvent`. -/
inductive SessionEventType
  | login
  | logout
  | user_change
  | tenant_change
  | cleanup
  | corruption_detected
deriving DecidableEq

/-- `SessionChangeEvent` as declared in the source. -/
structure SessionChangeEvent where
  type : SessionEventType
  previous_context : Option SessionContext
  new_context : Option SessionContext
  cleanup_performed : Bool
  timestamp : Int
deriving DecidableEq

/-- A registered listener: invoked on an event, it either returns or raises
(message carried by `Except.error`). -/
def SessionListener := SessionChangeEvent → Except String Unit

/-- One listener invocation under the per-listener `try`/`catch` of
`notifySessionChange`: a raising listener yields its logged error message,
nothing propagates. -/
def runListener (l : SessionListener) (e : SessionChangeEvent) : Option String :=
  match l e with
  | Except.ok _ => none
  | Except.error msg => some msg

/-- `SessionManager.notifySessionChange`: map every current listener to its
isolated invocation and await them all (`Promise.all`); the publisher gets
the full per-listener outcome list back and never an exception. -/
def notifySessionChange (listeners : List SessionListener)
    (e : SessionChangeEvent) : List (Option String) :=
  listeners.map (fun l => runListener l e)

/-! ## Scoped storage and the isolation / cleanup engine

`StorageManager` and `StorageHealthChecker` are repository modules that are
not part of the reviewed sources; their behaviour below is modelled from the
spec (scoped key/value storage with user/tenant namespacing, `remove` under a
scope, `clearAll` full wipe, and an opaque health oracle). -/

/-- Modelled from the spec: the namespace a storage entry lives under —
either a user-level scope or a tenant-scoped sub-namespace of a user. -/
inductive Scope
  | user (user_id : String)
  | tenant (user_id : String) (tenant_id : String)
deriving DecidableEq

/-- The user owning a scope. -/
def scopeOwner : Scope → String
  | Scope.user u => u
  | Scope.tenant u _ => u

/-- Modelled from the spec: a scoped storage entry, identified by its key
name and its namespace (values are irrelevant to the claims). -/
structure StorageKey where
  key : String
  scope : Scope
deriving DecidableEq

/-- The scoped storage contents: the set of entries present. -/
abbrev Storage := List StorageKey

/-- Modelled from the spec: `STORAGE_KEYS.CITY_ACCESS` (`StorageManager` is
not among the sources; the constant's actual string is opaque). -/
def KEY_CITY_ACCESS : String := "city_access"

/-- Modelled from the spec: `STORAGE_KEYS.BOOTSTRAP_DATA`. -/
def KEY_BOOTSTRAP_DATA : String := "bootstrap_data"

/-- Modelled from the spec: `STORAGE_KEYS.PERMISSIONS_CACHE`. -/
def KEY_PERMISSIONS_CACHE : String := "permissions_cache"

/-- Modelled from the spec: `STORAGE_KEYS.SESSION_METADATA`. -/
def KEY_SESSION_METADATA : String := "session_metadata"

/-- The `tenantSpecificKeys` list of `performTenantSpecificCleanup`. -/
def tenantSpecificKeys : List String :=
  [KEY_CITY_ACCESS, KEY_BOOTSTRAP_DATA, KEY_PERMISSIONS_CACHE]

/-- Modelled from the spec: `storageManager.remove(key, {context})` deletes
the entry with that key name under the given namespace, and nothing else. -/
def storageRemove (key : String) (sc : Scope) (st : Storage) : Storage :=
  List.filter (fun k => decide (k ≠ ⟨key, sc⟩)) st

/-- `SessionManager.performTenantSpecificCleanup`: remove each of the three
tenant-scoped cache keys under
`{tenant_id: context.tenant_id, user_id: context.user_id}`. -/
def performTenantSpecificCleanup (ctx : SessionContext) (st : Storage) :
    Storage :=
  tenantSpecificKeys.foldl
    (fun s k => storageRemove k (Scope.tenant ctx.user_id ctx.tenant_id) s) st

/-- The manager's full mutable state together with the external stores it
manipulates and ghost effect trails.  `scopedStore` is the `StorageManager`-held
scoped storage (modelled), `rawKeys` the raw `localStorage` key names;
`events` is the trace of published `SessionChangeEvent`s, `clearAllCount` the
number of `storageManager.clearAll()` invocations and `signOutCount` the
number of provider `signOut()` invocations (ghost observables). -/
structure SMState where
  sessionValidationPromise : Option Nat
  lastValidationTime : Int
  isRefreshing : Bool
  refreshPromise : Option Nat
  currentContext : Option SessionContext
  isCleanupInProgress : Bool
  scopedStore : Storage
  rawKeys : List String
  events : List SessionChangeEvent
  clearAllCount : Nat
  signOutCount : Nat
deriving DecidableEq

/-- Record a `notifySessionChange` publication in the ghost event trace (the
per-listener fan-out itself is modelled by `notifySessionChange` above). -/
def publishEvent (e : SessionChangeEvent) (st : SMState) : SMState :=
  { st with events := st.events ++ [e] }

/-- Modelled from the spec: `storageManager.set(key, value, opts)` makes the
entry present under the manager's current namespace. -/
def storageManagerSet (k : StorageKey) (st : SMState) : SMState :=
  { st with scopedStore := k :: List.filter (fun x => decide (x ≠ k)) st.scopedStore }

/-- Modelled from the spec: `storageManager.clearUserData(context)` purges
every entry scoped to that context's user — every key under that user's
namespace, tenant-scoped sub-keys included. -/
def clearUserData (ctx : SessionContext) (st : SMState) : SMState :=
  { st with
    scopedStore := List.filter (fun k => decide (scopeOwner k.scope ≠ ctx.user_id))
      st.scopedStore }

/-- Modelled from the spec: `storageManager.clearAll()` — unscoped full wipe
of all storage. -/
def storageClearAll (st : SMState) : SMState :=
  { st with scopedStore := [], rawKeys := [], clearAllCount := st.clearAllCount + 1 }

/-- The `legacyPatterns` of `clearLegacyStorage`. -/
def legacyPatterns : List String :=
  ["city_access_cache", "bootstrap_cache", "auth_cache", "user_context"]

/-- `SessionManager.clearLegacyStorage`: drop every raw `localStorage` key
matching a legacy pattern.  The source tests
`key.includes(pattern) || key.startsWith(pattern)`; the second disjunct is
subsumed by the first, so the filter condition is containment. -/
def clearLegacyStorage (st : SMState) : SMState :=
  { st with
    rawKeys := st.rawKeys.filter
      (fun k => !(legacyPatterns.any (fun p => containsSubstr k p))) }

/-- The key-name patterns `clearAuthState` sweeps from raw `localStorage`. -/
def authKeyPatterns : List String := ["supabase", "auth", "token", "session"]

/-- `SessionManager.clearAuthState`: provider `signOut()`, removal of every
auth-related raw key, `sessionStorage.clear()` (no observable in this model),
and reset of the validator/refresh slots. -/
def clearAuthState (st : SMState) : SMState :=
  { st with
    signOutCount := st.signOutCount + 1
    rawKeys := st.rawKeys.filter
      (fun k => !(authKeyPatterns.any (fun p => containsSubstr k p)))
    sessionValidationPromise := none
    lastValidationTime := 0
    isRefreshing := false
    refreshPromise := none }

/-- `SessionManager.performComprehensiveCleanup`: clear the current context's
user data if a context is held, clear legacy keys, run the health check
(external oracle, no modelled effect on the stores), then `clearAuthState`. -/
def performComprehensiveCleanup (st : SMState) : SMState :=
  let st1 :=
    match st.currentContext with
    | some ctx => clearUserData ctx st
    | none => st
  clearAuthState (clearLegacyStorage st1)

/-- `SessionManager.setSessionContext`: install the context, mirror it into
the storage manager's namespace context (no separate observable), store the
session metadata entry, and publish `user_change`/`login`. -/
def setSessionContext (now : Int) (ctx : SessionContext) (st : SMState) :
    SMState :=
  let prev := st.currentContext
  let st1 := { st with currentContext := some ctx }
  let st2 := storageManagerSet ⟨KEY_SESSION_METADATA, Scope.user ctx.user_id⟩ st1
  publishEvent
    { type := match prev with
        | some _ => SessionEventType.user_change
        | none => SessionEventType.login
      previous_context := prev
      new_context := some ctx
      cleanup_performed := false
      timestamp := now } st2

/-- `SessionManager.handleUserChange`: purge all storage of the previous
user (`performUserSpecificCleanup` = `clearUserData`), set the new context,
publish `user_change`. -/
def handleUserChange (now : Int) (prev nxt : SessionContext) (st : SMState) :
    SMState :=
  let st1 := clearUserData prev st
  let st2 := setSessionContext now nxt st1
  publishEvent
    { type := SessionEventType.user_change
      previous_context := some prev
      new_context := some nxt
      cleanup_performed := true
      timestamp := now } st2

/-- `SessionManager.handleTenantChange`: purge the previous tenant's cache
keys (`performTenantSpecificCleanup`), set the new context, publish
`tenant_change`. -/
def handleTenantChange (now : Int) (prev nxt : SessionContext) (st : SMState) :
    SMState :=
  let st1 := { st with scopedStore := performTenantSpecificCleanup prev st.scopedStore }
  let st2 := setSessionContext now nxt st1
  publishEvent
    { type := SessionEventType.tenant_change
      previous_context := some prev
      new_context := some nxt
      cleanup_performed := true
      timestamp := now } st2

/-- Whether a `clearSessionComplete` call took the guard's early return or
ran the cleanup. -/
inductive CleanupOutcome
  | skipped
  | performed
deriving DecidableEq

/-- `SessionManager.clearSessionComplete`: if `isCleanupInProgress` is set
the call logs and returns at once — no purge, no event, no awaiting of the
cleanup already running (the source holds no promise that could be awaited);
otherwise it sets the flag, drops the context, runs the comprehensive
cleanup, publishes `logout` and clears the flag in the `finally`. -/
def clearSessionComplete (now : Int) (st : SMState) :
    CleanupOutcome × SMState :=
  if st.isCleanupInProgress then
    (CleanupOutcome.skipped, st)
  else
    let st1 := { st with isCleanupInProgress := true }
    let prev := st1.currentContext
    let st2 := { st1 with currentContext := none }
    let st3 := performComprehensiveCleanup st2
    let st4 := publishEvent
      { type := SessionEventType.logout
        previous_context := prev
        new_context := none
        cleanup_performed := true
        timestamp := now } st3
    (CleanupOutcome.performed, { st4 with isCleanupInProgress := false })

/-- The storage health oracle's verdict
(`storageHealthChecker.performHealthCheck().overall_health`). -/
inductive HealthStatus
  | healthy
  | degraded
  | critical
  | corrupted
deriving DecidableEq

/-- Number of raw `localStorage` keys containing the session-metadata key
name (`key.includes(STORAGE_KEYS.SESSION_METADATA)`). -/
def sessionMetadataKeyCount (rawKeys : List String) : Nat :=
  (rawKeys.filter (fun k => containsSubstr k KEY_SESSION_METADATA)).length

/-- `SessionManager.detectSessionCorruption`: (1) more than 3 session-metadata
keys in raw storage; (2) the provider session's user disagrees with the held
context; (3) the health oracle reports `critical`/`corrupted`.  The oracles
are modelled as non-throwing (the `catch`-means-corrupt branch is thus
unreachable here). -/
def detectSessionCorruption (providerSession : Option Session)
    (health : HealthStatus) (st : SMState) : Bool :=
  if sessionMetadataKeyCount st.rawKeys > 3 then
    true
  else if (match providerSession, st.currentContext with
           | some s, some ctx => s.user.id != ctx.user_id
           | _, _ => false) then
    true
  else
    decide (health = HealthStatus.critical ∨ health = HealthStatus.corrupted)

/-- `SessionManager.performEmergencyCleanup`: full storage wipe
(`storageManager.clearAll()`), `clearAuthState` (provider sign-out included),
publish an event of type `cleanup` carrying the still-held context, then drop
the context. -/
def performEmergencyCleanup (now : Int) (st : SMState) : SMState :=
  let st1 := storageClearAll st
  let st2 := clearAuthState st1
  let st3 := publishEvent
    { type := SessionEventType.cleanup
      previous_context := st2.currentContext
      new_context := none
      cleanup_performed := true
      timestamp := now } st2
  { st3 with currentContext := none }

/-- External inputs to one `initializeSession` run: the provider session
(used both by the corruption check and the main path — the two `getSession()`
calls of one run observe the same provider state), the health oracle's
verdict, the token decoder and the clock. -/
structure InitEnv where
  providerSession : Option Session
  health : HealthStatus
  decode : String → Option Payload
  now : Int

/-- `SessionManager.initializeSession`: corruption check first (on corruption:
emergency cleanup, return `null`); no provider session: complete cleanup,
return `null`; otherwise resolve the new context and route into
user-change / tenant-change / plain set, returning `this.currentContext`.
The modelled oracles do not throw, so the outer `catch` (which would also run
the emergency cleanup) is not exercised. -/
def initializeSession (env : InitEnv) (st : SMState) :
    Option SessionContext × SMState :=
  if detectSessionCorruption env.providerSession env.health st then
    (none, performEmergencyCleanup env.now st)
  else
    match env.providerSession with
    | none => (none, (clearSessionComplete env.now st).2)
    | some s =>
      let newContext := createSessionContext env.decode s env.now
      match st.currentContext with
      | some prev =>
        if prev.user_id ≠ newContext.user_id then
          let st1 := handleUserChange env.now prev newContext st
          (st1.currentContext, st1)
        else if prev.tenant_id ≠ newContext.tenant_id then
          let st1 := handleTenantChange env.now prev newContext st
          (st1.currentContext, st1)
        else
          let st1 := setSessionContext env.now newContext st
          (st1.currentContext, st1)
      | none =>
        let st1 := setSessionContext env.now newContext st
        (st1.currentContext, st1)

/-! ## Concrete instances used by counterexamples and witnesses -/

/-- A user whose app-level and user-level metadata both carry a tenant. -/
def userMetaDisagree : User :=
  ⟨"u1", some "u@x", some ⟨some "meta-app"⟩, some ⟨some "meta-user"⟩⟩

/-- A credential whose access token has the three-segment JWT structure. -/
def sessStructured : Session := ⟨"hh.pp.ss", "rt", none, userMetaDisagree⟩

/-- Decoding succeeds but the payload carries no `tenant_id` claim. -/
def decodeNoClaim : String → Option Payload := fun _ => some ⟨none⟩

/-- Decoding succeeds with `tenant_id = "tenant-a"`. -/
def decodeClaimA : String → Option Payload := fun _ => some ⟨some "tenant-a"⟩

/-- A populated validator cache (a resolved validation from earlier). -/
def vc0 : VCache := ⟨some 7, 12345⟩

/-- Primary refresh fails, a stored refresh token exists and its retry
succeeds and persists. -/
def envFallback : RefreshEnv :=
  ⟨Except.error "refresh failed", some "stored-token",
   Except.ok (some sessStructured), true⟩

/-- Primary refresh succeeds. -/
def envPrimary : RefreshEnv :=
  ⟨Except.ok (some sessStructured), none, Except.error "unused", false⟩

/-- Every attempt of the validation body throws. -/
def oFail : Nat → Except String SessionValidation :=
  fun n => Except.error ("e" ++ toString n)

/-- A listener that raises. -/
def lFail : SessionListener := fun _ => Except.error "boom"

/-- A listener that returns. -/
def lOk : SessionListener := fun _ => Except.ok ()

/-- An arbitrary event to publish. -/
def ev0 : SessionChangeEvent := ⟨SessionEventType.login, none, none, false, 0⟩

/-- A live context on tenant `t1`. -/
def ctxT1 : SessionContext := ⟨"u1", "t1", "u@x", "sid", 0, 0⟩

/-- The same user on tenant `t2`. -/
def ctxT2 : SessionContext := ⟨"u1", "t2", "u@x", "sid2", 1, 1⟩

/-- Scoped storage holding two tenant-`t1` cache entries, a user-level probe
entry and a tenant-`t2` entry. -/
def store0 : Storage :=
  [⟨KEY_CITY_ACCESS, Scope.tenant "u1" "t1"⟩,
   ⟨KEY_BOOTSTRAP_DATA, Scope.tenant "u1" "t1"⟩,
   ⟨"probe", Scope.user "u1"⟩,
   ⟨KEY_CITY_ACCESS, Scope.tenant "u1" "t2"⟩]

/-- A manager state whose raw storage holds four session-metadata keys (the
corruption signal), with a live context and populated scoped storage. -/
def stCorrupt : SMState :=
  { sessionValidationPromise := some 3
    lastValidationTime := 9
    isRefreshing := false
    refreshPromise := none
    currentContext := some ctxT1
    isCleanupInProgress := false
    scopedStore := store0
    rawKeys := ["session_metadata_a", "x_session_metadata", "session_metadata",
                "ysession_metadataz", "other"]
    events := []
    clearAllCount := 0
    signOutCount := 0 }

/-- External inputs for an `initializeSession` run against `stCorrupt`. -/
def envInit0 : InitEnv := ⟨none, HealthStatus.healthy, fun _ => none, 77⟩

/-- A state in which a cleanup is currently in progress. -/
def stBusy : SMState := { stCorrupt with isCleanupInProgress := true }

/-! ## Helper lemmas -/

/-- A `validateSession` call inside the TTL window returns the cached
promise and changes nothing. -/
theorem validateSession_cached (now : Int) (st : ValidatorState) (p : Nat)
    (hp : st.sessionValidationPromise = some p)
    (hw : now - st.lastValidationTime < VALIDATION_CACHE_DURATION) :
    validateSession now st = (p, st) := by
  simp [validateSession, hp, hw]

/-- A whole sequence of in-window `validateSession` calls returns the cached
promise to every caller and changes nothing. -/
theorem runValidateCalls_cached (ts : List Int) (st : ValidatorState) (p : Nat)
    (hp : st.sessionValidationPromise = some p)
    (hw : ∀ t ∈ ts, t - st.lastValidationTime < VALIDATION_CACHE_DURATION) :
    runValidateCalls ts st = (ts.map fun _ => p, st) := by
  induction ts with
  | nil => simp [runValidateCalls]
  | cons t rest ih =>
    have h1 : validateSession t st = (p, st) :=
      validateSession_cached t st p hp (hw t (by simp))
    have h2 := ih (fun x hx => hw x (by simp [hx]))
    simp [runValidateCalls, h1, h2]

/-- A `refreshSession` call that observes an in-flight refresh joins its
promise and changes nothing. -/
theorem refreshSessionCall_inflight (st : RefreshState) (p : Nat)
    (h1 : st.isRefreshing = true) (h2 : st.refreshPromise = some p) :
    refreshSessionCall st = (p, st) := by
  simp [refreshSessionCall, h1, h2]

/-- Any number of `refreshSession` calls during an in-flight refresh all
join its promise and change nothing. -/
theorem runRefreshCalls_inflight (n : Nat) (st : RefreshState) (p : Nat)
    (h1 : st.isRefreshing = true) (h2 : st.refreshPromise = some p) :
    runRefreshCalls n st = (List.replicate n p, st) := by
  induction n with
  | zero => simp [runRefreshCalls]
  | succ m ih =>
    simp [runRefreshCalls, refreshSessionCall_inflight st p h1 h2, ih,
      List.replicate]

/-- Membership after a scoped `remove`. -/
theorem mem_storageRemove (a : StorageKey) (k : String) (sc : Scope)
    (st : Storage) :
    a ∈ storageRemove k sc st ↔ a ∈ st ∧ a ≠ ⟨k, sc⟩ := by
  simp [storageRemove, List.mem_filter]

/-- Disequality with a `StorageKey` literal, componentwise. -/
theorem StorageKey.ne_mk (a : StorageKey) (k : String) (sc : Scope) :
    a ≠ ⟨k, sc⟩ ↔ ¬(a.key = k ∧ a.scope = sc) := by
  cases a
  simp [StorageKey.mk.injEq]

/-- One step of `runRefreshCalls`. -/
theorem runRefreshCalls_succ (m : Nat) (st : RefreshState) :
    runRefreshCalls (m + 1) st
      = ((refreshSessionCall st).1
          :: (runRefreshCalls m (refreshSessionCall st).2).1,
         (runRefreshCalls m (refreshSessionCall st).2).2) := by
  rcases h : refreshSessionCall st with ⟨r, st1⟩
  rcases h2 : runRefreshCalls m st1 with ⟨rs, st2⟩
  simp [runRefreshCalls, h, h2]

/-! ## C1: memoized single-flight validation -/

/-- C1: for every sequence of two or more `validateSession` calls whose later
calls are issued within the 5-minute TTL window of the first (the window is
anchored at the start instant recorded by the first call, not at any
completion), every caller receives the same cached validation promise, the
underlying probe (`performValidation`) is launched exactly once, and the
recorded window anchor is the first call's start instant. -/
theorem validateSession_single_flight (t0 : Int) (ts : List Int)
    (st : ValidatorState) (h0 : st.sessionValidationPromise = none)
    (hts : ∀ t ∈ ts, t0 ≤ t ∧ t - t0 < VALIDATION_CACHE_DURATION) :
    (runValidateCalls (t0 :: ts) st).1
      = (t0 :: ts).map (fun _ => st.nextPromiseId)
    ∧ (runValidateCalls (t0 :: ts) st).2.probeCount = st.probeCount + 1
    ∧ (runValidateCalls (t0 :: ts) st).2.lastValidationTime = t0 := by
  have hfirst : validateSession t0 st =
      (st.nextPromiseId,
       { sessionValidationPromise := some st.nextPromiseId
         lastValidationTime := t0
         probeCount := st.probeCount + 1
         nextPromiseId := st.nextPromiseId + 1 }) := by
    simp [validateSession, h0, startValidation]
  have hrest := runValidateCalls_cached ts
    { sessionValidationPromise := some st.nextPromiseId
      lastValidationTime := t0
      probeCount := st.probeCount + 1
      nextPromiseId := st.nextPromiseId + 1 }
    st.nextPromiseId rfl (fun t ht => (hts t ht).2)
  simp [runValidateCalls, hfirst, hrest]

/-- Witness for C1: three calls at 0, 1 and 299999 ms from a fresh state all
receive promise 0 and the probe runs once. -/
theorem validateSession_single_flight_witness :
    (runValidateCalls [0, 1, 299999] ⟨none, 0, 0, 0⟩).1 = [0, 0, 0]
    ∧ (runValidateCalls [0, 1, 299999] ⟨none, 0, 0, 0⟩).2.probeCount = 1 := by
  have h := validateSession_single_flight 0 [1, 299999] ⟨none, 0, 0, 0⟩ rfl
    (by decide)
  exact ⟨by simpa using h.1, by simpa using h.2.1⟩

/-! ## C2: single-flight refresh -/

/-- C2: for every sequence of two or more `refreshSession` calls all issued
before the launched refresh completes, every caller receives the same
in-flight promise, `performRefresh` (the credential store's refresh
primitive) is invoked exactly once, and therefore all callers resolve to the
identical credential-or-`null` outcome of that one promise. -/
theorem refreshSession_single_flight (n : Nat) (st : RefreshState)
    (h0 : st.refreshPromise = none) :
    (runRefreshCalls (n + 2) st).1 = List.replicate (n + 2) st.nextPromiseId
    ∧ (runRefreshCalls (n + 2) st).2.refreshCount = st.refreshCount + 1
    ∧ ∀ resolveCredential : Nat → Option Session,
        ((runRefreshCalls (n + 2) st).1).map resolveCredential
          = List.replicate (n + 2) (resolveCredential st.nextPromiseId) := by
  have hfirst : refreshSessionCall st =
      (st.nextPromiseId,
       { isRefreshing := true
         refreshPromise := some st.nextPromiseId
         refreshCount := st.refreshCount + 1
         nextPromiseId := st.nextPromiseId + 1 }) := by
    cases hb : st.isRefreshing <;> simp [refreshSessionCall, h0, hb]
  have hrest := runRefreshCalls_inflight (n + 1)
    { isRefreshing := true
      refreshPromise := some st.nextPromiseId
      refreshCount := st.refreshCount + 1
      nextPromiseId := st.nextPromiseId + 1 }
    st.nextPromiseId rfl rfl
  have key : runRefreshCalls (n + 2) st
      = (st.nextPromiseId :: List.replicate (n + 1) st.nextPromiseId,
         { isRefreshing := true
           refreshPromise := some st.nextPromiseId
           refreshCount := st.refreshCount + 1
           nextPromiseId := st.nextPromiseId + 1 }) := by
    rw [show n + 2 = (n + 1) + 1 from rfl, runRefreshCalls_succ, hfirst]
    simp [hrest]
  refine ⟨?_, ?_, ?_⟩
  · simp [key, List.replicate]
  · simp [key]
  · intro resolveCredential
    simp [key, List.replicate]

/-- Witness for C2: three overlapping calls from an idle state all receive
promise 0 and the refresh primitive runs once. -/
theorem refreshSession_single_flight_witness :
    (runRefreshCalls 3 ⟨false, none, 0, 0⟩).1 = [0, 0, 0]
    ∧ (runRefreshCalls 3 ⟨false, none, 0, 0⟩).2.refreshCount = 1 := by
  have h := refreshSession_single_flight 1 ⟨false, none, 0, 0⟩ rfl
  exact ⟨by simpa using h.1, by simpa using h.2.1⟩

/-! ## C3: cache invalidation on refresh success -/

/-- Counterexample for C3: with the primary refresh failing and the
stored-fallback-token retry succeeding, `performRefresh` returns a non-null
credential while the validator cache is left exactly as it was (promise still
set, window anchor non-zero) — the fallback path never invalidates. -/
theorem performRefresh_fallback_keeps_cache_cex :
    (performRefresh envFallback vc0).1 = some sessStructured
    ∧ (performRefresh envFallback vc0).2 = vc0
    ∧ vc0.sessionValidationPromise ≠ none
    ∧ vc0.lastValidationTime ≠ 0 := by
  refine ⟨rfl, rfl, ?_, ?_⟩ <;> simp [vc0]

/-- C3 (amended): whenever `performRefresh` obtains a session from the
primary refresh call, it returns that session and synchronously clears the
validator cache (`sessionValidationPromise = null`,
`lastValidationTime = 0`); the stored-fallback path is excluded, since there
the cache is left untouched. -/
theorem performRefresh_primary_invalidates (env : RefreshEnv) (vc : VCache)
    (s : Session) (h : env.primaryResult = Except.ok (some s)) :
    performRefresh env vc
      = (some s, { sessionValidationPromise := none, lastValidationTime := 0 }) := by
  simp [performRefresh, h]

/-- Witness for C3 (amended) at a concrete successful primary refresh. -/
theorem performRefresh_primary_invalidates_witness :
    performRefresh envPrimary vc0
      = (some sessStructured,
         { sessionValidationPromise := none, lastValidationTime := 0 }) :=
  performRefresh_primary_invalidates envPrimary vc0 sessStructured rfl

/-! ## C4: tenant_id derivation -/

/-- Counterexample for C4: a token with the three-segment structure whose
payload decodes but carries no `tenant_id` claim yields the empty string,
not the app/user metadata value — the metadata fallback runs only when
decoding throws. -/
theorem createSessionContext_missing_claim_cex :
    (createSessionContext decodeNoClaim sessStructured 0).tenant_id = ""
    ∧ metadataTenantFallback sessStructured.user = "meta-app"
    ∧ (createSessionContext decodeNoClaim sessStructured 0).tenant_id
        ≠ metadataTenantFallback sessStructured.user
    ∧ tokenStructured sessStructured.access_token = true := by
  refine ⟨rfl, rfl, ?_, rfl⟩
  decide

/-- C4 (amended): for a structurally three-segment token, (a) a decoded
non-empty `tenant_id` claim wins (in particular over any metadata); the
app-metadata-then-user-metadata-then-empty fallback applies exactly when
decoding throws; and a token that decodes without a usable claim yields the
empty string directly, bypassing metadata. -/
theorem createSessionContext_tenant_resolution
    (decode : String → Option Payload) (s : Session) (now : Int)
    (hwf : tokenStructured s.access_token = true) :
    (∀ p t, decode s.access_token = some p → p.tenant_id = some t → t ≠ "" →
      (createSessionContext decode s now).tenant_id = t)
    ∧ (decode s.access_token = none →
      (createSessionContext decode s now).tenant_id
        = metadataTenantFallback s.user)
    ∧ (∀ p, decode s.access_token = some p →
      (p.tenant_id = none ∨ p.tenant_id = some "") →
      (createSessionContext decode s now).tenant_id = "") := by
  refine ⟨?_, ?_, ?_⟩
  · intro p t hp ht htne
    simp [createSessionContext, hwf, hp, ht, jsOrStr, htne]
  · intro hp
    simp [createSessionContext, hwf, hp]
  · intro p hp hcases
    rcases hcases with h | h <;> simp [createSessionContext, hwf, hp, h, jsOrStr]

/-- Witness for C4 (amended): the decoded claim `tenant-a` wins even though
both metadata levels carry a different tenant. -/
theorem createSessionContext_tenant_resolution_witness :
    tokenStructured sessStructured.access_token = true
    ∧ (createSessionContext decodeClaimA sessStructured 0).tenant_id
        = "tenant-a"
    ∧ metadataTenantFallback sessStructured.user = "meta-app" := by
  refine ⟨rfl, ?_, rfl⟩
  exact (createSessionContext_tenant_resolution decodeClaimA sessStructured 0
    rfl).1 ⟨some "tenant-a"⟩ "tenant-a" rfl rfl (by decide)

/-! ## C10: the mock-token special case -/

/-- C10: a credential whose access token is exactly `"mock-token-123"` (which
has no dot-separated structure) resolves to `tenant_id = "tenant-a"`
unconditionally — for every decoder and every app/user metadata, the
metadata fallbacks are bypassed. -/
theorem createSessionContext_mock_token (decode : String → Option Payload)
    (rt : String) (ea : Option Int) (u : User) (now : Int) :
    (createSessionContext decode ⟨"mock-token-123", rt, ea, u⟩ now).tenant_id
      = "tenant-a" := by
  have hts : tokenStructured "mock-token-123" = false := by decide
  simp [createSessionContext, hts]

/-! ## C5: tenant-change cleanup frame -/

/-- C5: on a tenant-change transition (same user, different tenant), the
cleanup removes exactly the three tenant-scoped cache keys (city access,
bootstrap data, permissions cache) under the previous tenant's namespace:
an entry survives iff it was present and is not one of those three keys in
that namespace, and every entry under a user-level (non-tenant) namespace is
untouched. -/
theorem tenantChange_cleanup_frame (prev nxt : SessionContext) (st : Storage)
    (huser : prev.user_id = nxt.user_id)
    (htenant : prev.tenant_id ≠ nxt.tenant_id) :
    (∀ a : StorageKey, a ∈ performTenantSpecificCleanup prev st ↔
      a ∈ st ∧ ¬(a.scope = Scope.tenant prev.user_id prev.tenant_id
                 ∧ a.key ∈ tenantSpecificKeys))
    ∧ (∀ a : StorageKey, ∀ u : String, a.scope = Scope.user u →
      (a ∈ performTenantSpecificCleanup prev st ↔ a ∈ st)) := by
  have hmem : ∀ a : StorageKey, a ∈ performTenantSpecificCleanup prev st ↔
      a ∈ st ∧ ¬(a.scope = Scope.tenant prev.user_id prev.tenant_id
                 ∧ a.key ∈ tenantSpecificKeys) := by
    intro a
    simp only [performTenantSpecificCleanup, tenantSpecificKeys,
      List.foldl_cons, List.foldl_nil, mem_storageRemove, StorageKey.ne_mk,
      List.mem_cons, List.not_mem_nil]
    tauto
  refine ⟨hmem, ?_⟩
  intro a u hu
  rw [hmem a]
  simp [hu]

/-- Witness for C5: switching `u1` from `t1` to `t2`, the `t1`-scoped city
key is gone while the user-level probe entry and the `t2`-scoped entry
survive. -/
theorem tenantChange_cleanup_frame_witness :
    (⟨"probe", Scope.user "u1"⟩ : StorageKey)
        ∈ performTenantSpecificCleanup ctxT1 store0
    ∧ (⟨KEY_CITY_ACCESS, Scope.tenant "u1" "t1"⟩ : StorageKey)
        ∉ performTenantSpecificCleanup ctxT1 store0
    ∧ (⟨KEY_CITY_ACCESS, Scope.tenant "u1" "t2"⟩ : StorageKey)
        ∈ performTenantSpecificCleanup ctxT1 store0 := by
  have h := tenantChange_cleanup_frame ctxT1 ctxT2 store0 rfl (by decide)
  refine ⟨?_, ?_, ?_⟩
  · exact (h.2 ⟨"probe", Scope.user "u1"⟩ "u1" rfl).mpr (by simp [store0])
  · intro hmemx
    have hc := (h.1 _).mp hmemx
    simp [ctxT1, tenantSpecificKeys] at hc
  · exact (h.1 _).mpr (by simp [store0, ctxT1])

/-! ## C6: corruption handling in initializeSession -/

/-- Counterexample for C6: with four session-metadata keys in raw storage,
`initializeSession` does return `null` after the emergency cleanup, but the
single event it publishes has type `cleanup` — no `corruption_detected`
event is ever published (that variant of the event type is declared in the
source and never emitted). -/
theorem initializeSession_corruption_event_cex :
    sessionMetadataKeyCount stCorrupt.rawKeys = 4
    ∧ (initializeSession envInit0 stCorrupt).1 = none
    ∧ (initializeSession envInit0 stCorrupt).2.events.map SessionChangeEvent.type
        = [SessionEventType.cleanup]
    ∧ SessionEventType.corruption_detected
        ∉ (initializeSession envInit0 stCorrupt).2.events.map
            SessionChangeEvent.type := by
  refine ⟨by decide, rfl, rfl, by decide⟩

/-- C6 (amended): whenever the corruption signal holds (more than 3
session-metadata keys in raw storage), `initializeSession` performs the
emergency cleanup — `clearAll()` invoked (full storage wipe), the live
context cleared, provider sign-out — publishes an event of type `cleanup`
(not `corruption_detected`) carrying the pre-cleanup context, and returns
`null`. -/
theorem initializeSession_corruption_behavior (env : InitEnv) (st : SMState)
    (h : sessionMetadataKeyCount st.rawKeys > 3) :
    initializeSession env st = (none, performEmergencyCleanup env.now st)
    ∧ (performEmergencyCleanup env.now st).currentContext = none
    ∧ (performEmergencyCleanup env.now st).clearAllCount = st.clearAllCount + 1
    ∧ (performEmergencyCleanup env.now st).signOutCount = st.signOutCount + 1
    ∧ (performEmergencyCleanup env.now st).scopedStore = []
    ∧ (performEmergencyCleanup env.now st).events
        = st.events ++ [{ type := SessionEventType.cleanup
                          previous_context := st.currentContext
                          new_context := none
                          cleanup_performed := true
                          timestamp := env.now }] := by
  have hd : detectSessionCorruption env.providerSession env.health st = true := by
    simp [detectSessionCorruption, h]
  refine ⟨by simp [initializeSession, hd], ?_, ?_, ?_, ?_, ?_⟩ <;>
    simp [performEmergencyCleanup, storageClearAll, clearAuthState, publishEvent]

/-- Witness for C6 (amended) at the concrete corrupted state. -/
theorem initializeSession_corruption_behavior_witness :
    sessionMetadataKeyCount stCorrupt.rawKeys > 3
    ∧ initializeSession envInit0 stCorrupt
        = (none, performEmergencyCleanup 77 stCorrupt)
    ∧ (performEmergencyCleanup 77 stCorrupt).clearAllCount = 1
    ∧ (performEmergencyCleanup 77 stCorrupt).currentContext = none := by
  have h : sessionMetadataKeyCount stCorrupt.rawKeys > 3 := by decide
  have hmain := initializeSession_corruption_behavior envInit0 stCorrupt h
  exact ⟨h, by simpa using hmain.1, by simpa [stCorrupt] using hmain.2.2.1,
    by simpa using hmain.2.1⟩

/-! ## C7: overlapping cleanup requests -/

/-- Counterexample for C7: a `clearSessionComplete` call arriving while
`isCleanupInProgress` is set completes immediately with the state unchanged —
no purge, no published event, and the first cleanup still marked in
progress at the moment the second call returns.  The source holds no promise
for the ongoing cleanup, so the second request cannot and does not wait for
its completion, contradicting the claimed "waits for the first cleanup to
finish before completing". -/
theorem clearSessionComplete_overlap_cex :
    (clearSessionComplete 5 stBusy).1 = CleanupOutcome.skipped
    ∧ (clearSessionComplete 5 stBusy).2 = stBusy
    ∧ stBusy.isCleanupInProgress = true
    ∧ stBusy.scopedStore ≠ []
    ∧ (clearSessionComplete 5 stBusy).2.events = stBusy.events := by
  refine ⟨rfl, rfl, rfl, by decide, rfl⟩

/-- C7 (amended): a cleanup request arriving while another cleanup is in
progress performs no purge and returns immediately as a no-op (without
waiting for the first cleanup to finish) — overlapping requests never cause
a second concurrent purge. -/
theorem clearSessionComplete_guard_noop (now : Int) (st : SMState)
    (h : st.isCleanupInProgress = true) :
    clearSessionComplete now st = (CleanupOutcome.skipped, st) := by
  simp [clearSessionComplete, h]

/-- Witness for C7 (amended) at the concrete busy state. -/
theorem clearSessionComplete_guard_noop_witness :
    clearSessionComplete 5 stBusy = (CleanupOutcome.skipped, stBusy) :=
  clearSessionComplete_guard_noop 5 stBusy rfl

/-! ## C8: retry backoff schedule -/

/-- C8: with `MAX_RETRY_ATTEMPTS = 5` and `RETRY_DELAY_BASE = 1000` ms, when
every attempt's body throws, the sleeps inserted between consecutive
attempts are exactly `1000·2^(n-1)` ms after attempt `n` — the trace is
`[1000, 2000, 4000, 8000]` (four delays for five attempts, none after the
final attempt) — and the loop returns (never throws) an invalid
`SessionValidation` carrying the last attempt's error message. -/
theorem performValidation_backoff
    (o : Nat → Except String SessionValidation) (e : Nat → String)
    (h : ∀ n, 1 ≤ n → n ≤ 5 → o n = Except.error (e n)) (he : e 5 ≠ "") :
    (performValidation o).2 = [1000, 2000, 4000, 8000]
    ∧ (performValidation o).1
        = { isValid := false, session := none, error := some (e 5) } := by
  have h1 := h 1 (by norm_num) (by norm_num)
  have h2 := h 2 (by norm_num) (by norm_num)
  have h3 := h 3 (by norm_num) (by norm_num)
  have h4 := h 4 (by norm_num) (by norm_num)
  have h5 := h 5 (by norm_num) (by norm_num)
  have hsched : attemptSchedule = [1, 2, 3, 4, 5] := rfl
  constructor <;>
    simp [performValidation, hsched, retryAttempts, h1, h2, h3, h4, h5,
      MAX_RETRY_ATTEMPTS, RETRY_DELAY_BASE, finalInvalid, jsOrStr, he]

/-- Witness for C8: all five attempts failing with messages `e1..e5`. -/
theorem performValidation_backoff_witness :
    (performValidation oFail).2 = [1000, 2000, 4000, 8000]
    ∧ (performValidation oFail).1
        = { isValid := false, session := none, error := some "e5" } := by
  have h := performValidation_backoff oFail (fun n => "e" ++ toString n)
    (fun _ _ _ => rfl) (by decide)
  simpa using h

/-! ## C9: listener failure isolation -/

/-- C9: publication invokes every registered listener — the outcome list has
one slot per listener, slot `i` is exactly listener `i`'s own isolated
outcome (a raising listener contributes its caught message, nothing
propagates to the publisher, whose result is an ordinary value), and slot
`i` is unaffected by replacing the other listeners; the publisher's result
covers the completed invocation of every listener. -/
theorem notifySessionChange_isolation (ls : List SessionListener)
    (e : SessionChangeEvent) (i : Nat) :
    (notifySessionChange ls e).length = ls.length
    ∧ (notifySessionChange ls e).get? i
        = (ls.get? i).map (fun l => runListener l e)
    ∧ ∀ ls' : List SessionListener, ls'.get? i = ls.get? i →
        (notifySessionChange ls' e).get? i = (notifySessionChange ls e).get? i := by
  refine ⟨by simp [notifySessionChange], ?_, ?_⟩
  · simp [notifySessionChange]
  · intro ls' hagree
    simp only [List.get?_eq_getElem?] at hagree
    simp [notifySessionChange, hagree]

/-- Witness for C9: a raising listener next to a well-behaved one — both run,
the failure stays in its own slot, and the well-behaved slot is the same as
in a run where the raising listener is replaced. -/
theorem notifySessionChange_isolation_witness :
    notifySessionChange [lFail, lOk] ev0 = [some "boom", none]
    ∧ (notifySessionChange [lOk, lOk] ev0).get? 1
        = (notifySessionChange [lFail, lOk] ev0).get? 1 := by
  refine ⟨rfl, ?_⟩
  exact (notifySessionChange_isolation [lFail, lOk] ev0 1).2.2 [lOk, lOk] rfl

end SessionSpec
